import Mathlib

/-!
Verification of the musicbox web client's connection layer and store
helpers, shallowly embedded from the TypeScript sources.

Conventions of the embedding:
* JSON values are the inductive `Json` (numbers as `Int`: every payload
  the protocol exchanges in the verified scenarios is integral).
* Decoders from the schema library are `Json → Except String α`,
  modelling `JsonDecoder.decodePromise`: success or a decode failure.
* JavaScript `Map`s, plain objects and `RequestInit` option bags are
  association lists; `List.lookup` models key access (first match wins).
-/

/-- A JSON value as carried on the wire. Objects keep field order, as
`JSON.stringify` does. -/
inductive Json where
  | null : Json
  | bool (b : Bool) : Json
  | num (n : Int) : Json
  | str (s : String) : Json
  | arr (elems : List Json) : Json
  | obj (fields : List (String × Json)) : Json
deriving Repr

namespace Musicbox

/-- `Track` from webapp/js/types/musicbox.ts. -/
structure Track where
  path : String
  title : String
deriving DecidableEq, Repr

/-- `StoredPlaylist` from webapp/js/types/musicbox.ts. -/
structure StoredPlaylist where
  name : String
  tracks : List Track
deriving DecidableEq, Repr

/-- `PlayState` from webapp/js/types/musicbox.ts. -/
structure PlayState where
  position : Int
  duration : Int
  paused : Bool
deriving DecidableEq, Repr

/-- `AppState` from webapp/js/types/musicbox.ts: the decoded domain
state returned by the "state" endpoint. -/
structure AppState where
  storedPlaylists : List (String × StoredPlaylist)
  playlist : List Track
  playState : Option PlayState
  volume : Int
deriving DecidableEq, Repr

/-- `JsonDecoder.string`: succeeds exactly on JSON strings. -/
def decodeString : Json → Except String String
  | .str s => .ok s
  | _ => .error "expected a string"

/-- `JsonDecoder.number`: succeeds exactly on JSON numbers. -/
def decodeNumber : Json → Except String Int
  | .num n => .ok n
  | _ => .error "expected a number"

/-- `JsonDecoder.boolean`: succeeds exactly on JSON booleans. -/
def decodeBoolean : Json → Except String Bool
  | .bool b => .ok b
  | _ => .error "expected a boolean"

/-- A required object field: the schema library fails the whole object
when the field is absent or its decoder fails. -/
def decodeField (fields : List (String × Json)) (name : String)
    (d : Json → Except String α) : Except String α :=
  match fields.lookup name with
  | some v => d v
  | none => .error (name ++ ": missing")

/-- An optional object field (`JsonDecoder.optional`): an absent or
null value decodes to `none`, anything else runs the inner decoder. -/
def decodeOptField (fields : List (String × Json)) (name : String)
    (d : Json → Except String α) : Except String (Option α) :=
  match fields.lookup name with
  | some .null => .ok none
  | some v => (d v).map some
  | none => .ok none

/-- `JsonDecoder.array d`: element-wise decoding of a JSON array. -/
def decodeArray (d : Json → Except String α) : Json → Except String (List α)
  | .arr elems => elems.mapM d
  | _ => .error "expected an array"

/-- `JsonDecoder.dictionary d`: an open string-keyed mapping whose
values all decode with `d`. -/
def decodeDict (d : Json → Except String α) :
    Json → Except String (List (String × α))
  | .obj fields => fields.mapM (fun p => (d p.2).map (fun v => (p.1, v)))
  | _ => .error "expected an object"

/-- `TrackDecoder` from musicbox.ts. -/
def TrackDecoder : Json → Except String Track
  | .obj fields => do
      let path ← decodeField fields "path" decodeString
      let title ← decodeField fields "title" decodeString
      .ok { path := path, title := title }
  | _ => .error "Track: expected an object"

/-- `StoredPlaylistDecoder` from musicbox.ts. -/
def StoredPlaylistDecoder : Json → Except String StoredPlaylist
  | .obj fields => do
      let name ← decodeField fields "name" decodeString
      let tracks ← decodeField fields "tracks" (decodeArray TrackDecoder)
      .ok { name := name, tracks := tracks }
  | _ => .error "StoredPlaylist: expected an object"

/-- `PlayStateDecoder` from musicbox.ts. -/
def PlayStateDecoder : Json → Except String PlayState
  | .obj fields => do
      let position ← decodeField fields "position" decodeNumber
      let duration ← decodeField fields "duration" decodeNumber
      let paused ← decodeField fields "paused" decodeBoolean
      .ok { position := position, duration := duration, paused := paused }
  | _ => .error "PlayState: expected an object"

/-- `AppStateDecoder` from musicbox.ts: dictionary of stored playlists,
array of tracks, optional play state, numeric volume. -/
def AppStateDecoder : Json → Except String AppState
  | .obj fields => do
      let storedPlaylists ←
        decodeField fields "storedPlaylists" (decodeDict StoredPlaylistDecoder)
      let playlist ← decodeField fields "playlist" (decodeArray TrackDecoder)
      let playState ← decodeOptField fields "playState" PlayStateDecoder
      let volume ← decodeField fields "volume" decodeNumber
      .ok { storedPlaylists := storedPlaylists, playlist := playlist,
            playState := playState, volume := volume }
  | _ => .error "AppState: expected an object"

end Musicbox

namespace Api

/-- The `Command` vocabulary from webapp/js/types/api.ts: the closed set
of control actions a client may send. -/
inductive Command where
  | PreviousTrack : Command
  | NextTrack : Command
  | PlayPause : Command
  | VolumeUp : Command
  | VolumeDown : Command
  | Shutdown : Command
  | Reload : Command
  | Status : Command
  | StartPlaylist (name : String) (force : Bool) : Command
deriving DecidableEq, Repr

/-- The literal string discriminant (`type` field) of a `Command`. -/
def Command.tag : Command → String
  | .PreviousTrack => "PreviousTrack"
  | .NextTrack => "NextTrack"
  | .PlayPause => "PlayPause"
  | .VolumeUp => "VolumeUp"
  | .VolumeDown => "VolumeDown"
  | .Shutdown => "Shutdown"
  | .Reload => "Reload"
  | .Status => "Status"
  | .StartPlaylist _ _ => "StartPlaylist"

/-- The `Event` vocabulary from webapp/js/types/api.ts: the eight
parameterless control tags plus `PlaybackPosition`. -/
inductive Event where
  | PreviousTrack : Event
  | NextTrack : Event
  | PlayPause : Event
  | VolumeUp : Event
  | VolumeDown : Event
  | Shutdown : Event
  | Reload : Event
  | Status : Event
  | PlaybackPosition (duration : Int) : Event
deriving DecidableEq, Repr

/-- The literal string discriminant (`type` field) of an `Event`. -/
def Event.tag : Event → String
  | .PreviousTrack => "PreviousTrack"
  | .NextTrack => "NextTrack"
  | .PlayPause => "PlayPause"
  | .VolumeUp => "VolumeUp"
  | .VolumeDown => "VolumeDown"
  | .Shutdown => "Shutdown"
  | .Reload => "Reload"
  | .Status => "Status"
  | .PlaybackPosition _ => "PlaybackPosition"

/-- The tags of the `Command` union, transcribed from the literal
union type of webapp/js/types/api.ts. -/
def commandTagList : List String :=
  ["PreviousTrack", "NextTrack", "PlayPause", "VolumeUp", "VolumeDown",
   "Shutdown", "Reload", "Status", "StartPlaylist"]

/-- The tags of the `Event` union, transcribed from the literal union
type of webapp/js/types/api.ts. -/
def eventTagList : List String :=
  ["PreviousTrack", "NextTrack", "PlayPause", "VolumeUp", "VolumeDown",
   "Shutdown", "Reload", "Status", "PlaybackPosition"]

/-- Inbound envelope `MessageFromServer` from webapp/js/types/api.ts. -/
inductive MessageFromServer where
  | Response (id : Nat) (response : Json) : MessageFromServer
  | Event (event : Api.Event) : MessageFromServer
deriving Repr

/-- Outbound envelope `MessageToServer` from webapp/js/types/api.ts. -/
inductive MessageToServer where
  | Request (id : Nat) (path : String) (data : Json) : MessageToServer
  | Command (command : Api.Command) : MessageToServer
deriving Repr

/-- The wire form of a `Command`, following the field layout
`JSON.stringify` produces for the object literals of the source. -/
def Command.toJson : Command → Json
  | .StartPlaylist name force =>
      .obj [("type", .str "StartPlaylist"), ("name", .str name),
            ("force", .bool force)]
  | c => .obj [("type", .str c.tag)]

/-- The wire form of a `MessageToServer` envelope, as serialized by
`JSON.stringify` in `Connection.send`. -/
def MessageToServer.toJson : MessageToServer → Json
  | .Request id path data =>
      .obj [("type", .str "Request"), ("id", .num id), ("path", .str path),
            ("data", data)]
  | .Command command =>
      .obj [("type", .str "Command"), ("command", command.toJson)]

/-- Modelled from the spec: the peer-side decoder for the domain
`Command` inside an envelope. The server's decode is not under src/;
section 4.2 of the spec makes the vocabulary a closed tagged union
discriminated by the literal `type` field, with `StartPlaylist`
carrying `name` and `force`. -/
def decodeCommand (j : Json) : Except String Command :=
  match j with
  | .obj fields =>
      match fields.lookup "type" with
      | some (.str "PreviousTrack") => .ok .PreviousTrack
      | some (.str "NextTrack") => .ok .NextTrack
      | some (.str "PlayPause") => .ok .PlayPause
      | some (.str "VolumeUp") => .ok .VolumeUp
      | some (.str "VolumeDown") => .ok .VolumeDown
      | some (.str "Shutdown") => .ok .Shutdown
      | some (.str "Reload") => .ok .Reload
      | some (.str "Status") => .ok .Status
      | some (.str "StartPlaylist") =>
          match fields.lookup "name", fields.lookup "force" with
          | some (.str name), some (.bool force) =>
              .ok (.StartPlaylist name force)
          | _, _ => .error "StartPlaylist: bad fields"
      | _ => .error "Command: unknown tag"
  | _ => .error "Command: expected an object"

/-- Modelled from the spec: the mock peer's decode of a client-bound
envelope, inverse of the wire shapes of section 3 (`Request` with id,
path and opaque data; `Command` with a domain command). -/
def decodeMessageToServer (j : Json) : Except String MessageToServer :=
  match j with
  | .obj fields =>
      match fields.lookup "type" with
      | some (.str "Request") =>
          match fields.lookup "id", fields.lookup "path",
                fields.lookup "data" with
          | some (.num (Int.ofNat id)), some (.str path), some data =>
              .ok (.Request id path data)
          | _, _, _ => .error "Request: bad fields"
      | some (.str "Command") =>
          match fields.lookup "command" with
          | some c => (decodeCommand c).map MessageToServer.Command
          | none => .error "Command: missing payload"
      | _ => .error "MessageToServer: unknown tag"
  | _ => .error "MessageToServer: expected an object"

end Api

namespace Conn

open Api

/-- The mutable state of a `Connection` (webapp/js/api/connection.ts).
`requestId` is the next correlation id (field initializer 0).
`requests` is the domain of the `Map<number, [ResponseHandler,
Rejecter]>`: the values are the caller's resolve and reject
continuations, whose invocations — were any to happen — are recorded
in a step's `settled` output. `socketGen` counts how many times
`this.socket` has been replaced by `this.connect()`. -/
structure Connection where
  requestId : Nat
  requests : List Nat
  socketGen : Nat
deriving DecidableEq, Repr

/-- The state a freshly constructed `Connection` starts in. -/
def connInit : Connection := { requestId := 0, requests := [], socketGen := 0 }

/-- An invocation of a stored continuation: resolving or rejecting the
pending caller of `request`. -/
inductive Settlement where
  | resolved (id : Nat) (value : Json) : Settlement
  | rejected (id : Nat) (reason : String) : Settlement
deriving Repr

/-- An external stimulus applied to a `Connection`: a call to
`request` (with `sendFails` recording whether the un-awaited `send`
promise ends up rejecting), an inbound socket message, a socket error,
or a socket close. -/
inductive CEvent where
  | request (path : String) (data : Json) (sendFails : Bool) : CEvent
  | message (m : MessageFromServer) : CEvent
  | sockError : CEvent
  | sockClose : CEvent

/-- Whether a stimulus is a call to `request`, the only operation that
allocates a correlation id. -/
def CEvent.isRequest : CEvent → Bool
  | .request _ _ _ => true
  | _ => false

/-- What one stimulus produces: the successor connection state, the
continuations invoked, the correlation id assigned (for `request`),
and the frames that reached the socket. -/
structure StepOut where
  conn : Connection
  settled : List Settlement
  assigned : Option Nat
  sent : List MessageToServer
deriving Repr

/-- `Connection.onMessage`: the handler installed on the socket's
message listener. Its body in the source is empty, so it neither reads
the frame nor touches any state. -/
def onMessage (c : Connection) (_m : MessageFromServer) : StepOut :=
  { conn := c, settled := [], assigned := none, sent := [] }

/-- `Connection.onError`: reassigns `this.socket = this.connect()` and
nothing else. -/
def onError (c : Connection) : StepOut :=
  { conn := { c with socketGen := c.socketGen + 1 },
    settled := [], assigned := none, sent := [] }

/-- `Connection.onClose`: identical body to `onError`. -/
def onClose (c : Connection) : StepOut :=
  { conn := { c with socketGen := c.socketGen + 1 },
    settled := [], assigned := none, sent := [] }

/-- `Connection.request`: assigns `requestId++` as the correlation id,
stores the resolve and reject continuations under it, and fires off
an un-awaited `this.send` of the Request envelope carrying that id;
a failure of that send stays inside the separate send promise, so
no continuation is invoked either way. -/
def request (c : Connection) (path : String) (data : Json)
    (sendFails : Bool) : StepOut :=
  let requestId := c.requestId
  { conn := { c with requestId := requestId + 1,
                     requests := c.requests ++ [requestId] },
    settled := [],
    assigned := some requestId,
    sent := if sendFails then [] else [.Request requestId path data] }

/-- One stimulus applied to a connection, dispatching to the handler
the source installs for it. -/
def step (c : Connection) : CEvent → StepOut
  | .request path data sendFails => request c path data sendFails
  | .message m => onMessage c m
  | .sockError => onError c
  | .sockClose => onClose c

/-- The cumulative outcome of a stimulus sequence. -/
structure TraceOut where
  conn : Connection
  settled : List Settlement
  assigned : List Nat
  sent : List MessageToServer
deriving Repr

/-- Runs a sequence of stimuli, concatenating the settlements,
assigned correlation ids and sent frames in order. -/
def runTrace (c : Connection) : List CEvent → TraceOut
  | [] => { conn := c, settled := [], assigned := [], sent := [] }
  | e :: evs =>
      let o := step c e
      let r := runTrace o.conn evs
      { conn := r.conn,
        settled := o.settled ++ r.settled,
        assigned := o.assigned.toList ++ r.assigned,
        sent := o.sent ++ r.sent }

end Conn

/-- A transport option bag (TypeScript `RequestInit`), as an
association list of option names to values. Key access is
`List.lookup` (first match wins). -/
abbrev RequestInit : Type := List (String × String)

/-- `Object.assign(target, src)` observed through option lookup: a key
present in `src` overrides the same key of `target`. Listing `src`
first makes first-match lookup give `src` precedence; the model tracks
which value each option resolves to, not key enumeration order. -/
def objAssign (target src : RequestInit) : RequestInit :=
  src ++ target

namespace Http04

/-- `request` from the HTTP helper module (src/unnamed/part_004): the
zero-argument GET-style helper. `fetchFn` stands for the ambient
`fetch` followed by `response.json()`: the JSON body the transport
returns for a path and option bag. The source fetches with
`Object.assign(\x7b}, defaults, init)` and decodes the body with the
given schema. -/
def request {R : Type} (path : String) (decoder : Json → Except String R)
    (defaults : RequestInit) (fetchFn : String → RequestInit → Json)
    (init : RequestInit) : Except String R :=
  decoder (fetchFn path (objAssign (objAssign [] defaults) init))

/-- `typedRequest` from the same module: the POST-style helper. The
target of the assign is the JSON body entry, so `defaults` and then
`init` are layered over it. -/
def typedRequest {P R : Type} (path : String) (stringify : P → String)
    (decoder : Json → Except String R) (defaults : RequestInit)
    (fetchFn : String → RequestInit → Json) (params : P)
    (init : RequestInit) : Except String R :=
  decoder (fetchFn path
    (objAssign (objAssign [("body", stringify params)] defaults) init))

end Http04

namespace Http05

/-- `request` from the second HTTP helper variant (first section of
src/unnamed/part_005): the returned closure takes no parameter, so the
caller-supplied `init` never reaches the fetch; the options are
`Object.assign(\x7b}, defaults)` alone. -/
def request {R : Type} (path : String) (decoder : Json → Except String R)
    (defaults : RequestInit) (fetchFn : String → RequestInit → Json)
    (_init : RequestInit) : Except String R :=
  decoder (fetchFn path (objAssign [] defaults))

end Http05

namespace StoreTypes

/-- `PlaybackState` from the store-side types module
(src/unnamed/part_001). -/
structure PlaybackState where
  track : Musicbox.Track
  position : Int
  duration : Int
  paused : Bool
deriving DecidableEq, Repr

/-- `AppState` from the store-side types module (src/unnamed/part_001):
the state the reducer map mutates; `storedPlaylists` is a JavaScript
`Map`, modelled as an association list in insertion order. -/
structure AppState where
  playbackState : Option PlaybackState
  storedPlaylists : List (String × Musicbox.StoredPlaylist)
  playlist : List Musicbox.Track
deriving DecidableEq, Repr

end StoreTypes

namespace StoreHelpers

/-- An action as dispatched to the store: a string discriminant and a
payload (webapp/js/store/helpers.ts `ReducerAction`). -/
structure ReducerAction (P : Type) where
  type : String
  payload : P

/-- Immer's `produce`, the external capability the helper builds on:
applies the draft mutations to a fresh draft of the state and returns
the result; the input state itself is never mutated (the embedding is
pure, so non-mutation is inherent). -/
def produce {S : Type} (state : S) (recipe : S → S) : S :=
  recipe state

/-- The property names JavaScript's `in` operator finds on a plain
object literal beyond its own keys: the members of `Object.prototype`
(including the Annex B accessors every browser and Node provide). -/
def objectPrototypeKeys : List String :=
  ["constructor", "hasOwnProperty", "isPrototypeOf", "propertyIsEnumerable",
   "toLocaleString", "toString", "valueOf", "__defineGetter__",
   "__defineSetter__", "__lookupGetter__", "__lookupSetter__", "__proto__"]

/-- JavaScript's `key in obj` on an object literal: true for an own
key and for every property inherited from `Object.prototype`; an own
key shadows an inherited one on access. -/
def jsIn {V : Type} (key : String) (m : List (String × V)) : Bool :=
  (m.lookup key).isSome || objectPrototypeKeys.contains key

/-- The value the top-level reducer evaluates to, which in JavaScript
is not always of the state type: `state s` is a value of the state
type; `junk v` is a primitive an inherited `Object.prototype` method
returned, which `produce` installs as the new store state; `mapObject`
is the reducer map object itself (what `valueOf` returns); `thrown`
marks a TypeError escaping the reducer. -/
inductive ReducerOutcome (S : Type) where
  | state (s : S) : ReducerOutcome S
  | junk (v : Json) : ReducerOutcome S
  | mapObject : ReducerOutcome S
  | thrown : ReducerOutcome S
deriving Repr

/-- What `produce(state, draft => reducerMap[key](draft, payload))`
evaluates to when `key` names an inherited `Object.prototype` member,
derived member by member from the ES semantics of calling that member
with `this` bound to the reducer map object and the draft (a plain
object, stringifying to "[object Object]") as first argument, with
payloads that are data values, not functions:
`constructor` is the `Object` function, which returns its object
argument, so the recipe returns the unmodified draft and `produce`
yields the original state; `hasOwnProperty` and `propertyIsEnumerable`
test the map for the key "[object Object]"; `isPrototypeOf` is false
(the map is not in the draft's prototype chain); `toString` and
`toLocaleString` return "[object Object]", which `produce` returns as
the new state; `valueOf` returns `this`, the reducer map itself;
`__lookupGetter__` and `__lookupSetter__` return undefined, so
`produce` yields the unmodified draft, that is the original state;
`__defineGetter__` and `__defineSetter__` require a callable second
argument and throw a TypeError on a data payload; `__proto__` reads as
`Object.prototype`, which is not callable, so the call throws. -/
def protoDispatch {S V : Type} (m : List (String × V)) (key : String)
    (state : S) : ReducerOutcome S :=
  match key with
  | "constructor" => .state state
  | "hasOwnProperty" => .junk (.bool (m.lookup "[object Object]").isSome)
  | "isPrototypeOf" => .junk (.bool false)
  | "propertyIsEnumerable" => .junk (.bool (m.lookup "[object Object]").isSome)
  | "toLocaleString" => .junk (.str "[object Object]")
  | "toString" => .junk (.str "[object Object]")
  | "valueOf" => .mapObject
  | "__lookupGetter__" => .state state
  | "__lookupSetter__" => .state state
  | _ => .thrown

/-- `immutableReducer` from webapp/js/store/helpers.ts: the source
tests `action.type in reducerMap`, which also matches the properties
the map object inherits from `Object.prototype`; on a hit it runs
`reducerMap[action.type]` on a draft via `produce` — the map's own
entry when the type is an own key (own keys shadow inherited ones),
otherwise the inherited member, whose result `protoDispatch` gives —
and only when the `in` test fails does it return the incoming state
itself. Draft-mutating reducers are modelled as pure state
transformers. -/
def immutableReducer {S P : Type} (reducerMap : List (String × (S → P → S)))
    (state : S) (action : ReducerAction P) : ReducerOutcome S :=
  if jsIn action.type reducerMap then
    match reducerMap.lookup action.type with
    | some r => .state (produce state (fun draft => r draft action.payload))
    | none => protoDispatch reducerMap action.type state
  else
    .state state

/-- JavaScript `Map.prototype.set`: an existing key keeps its position
and gets the new value; a new key is appended. -/
def mapSet {V : Type} (m : List (String × V)) (k : String) (v : V) :
    List (String × V) :=
  if (m.lookup k).isSome then
    m.map (fun p => if p.1 == k then (k, v) else p)
  else
    m ++ [(k, v)]

/-- The `UpdateStoredPlaylist` entry of the reducer map in
webapp/js/store/reducer.ts: `state.storedPlaylists.set(payload.name,
payload)`. -/
def UpdateStoredPlaylist (state : StoreTypes.AppState)
    (payload : Musicbox.StoredPlaylist) : StoreTypes.AppState :=
  { state with
    storedPlaylists := mapSet state.storedPlaylists payload.name payload }

/-- The reducer map object of webapp/js/store/reducer.ts: its only own
key is `UpdateStoredPlaylist`. -/
def appReducerMap :
    List (String × (StoreTypes.AppState → Musicbox.StoredPlaylist →
      StoreTypes.AppState)) :=
  [("UpdateStoredPlaylist", UpdateStoredPlaylist)]

/-- The store's top-level reducer: `immutableReducer(reducer)` as built
in webapp/js/store/index.ts. -/
def appReducer (state : StoreTypes.AppState)
    (action : ReducerAction Musicbox.StoredPlaylist) :
    ReducerOutcome StoreTypes.AppState :=
  immutableReducer appReducerMap state action

end StoreHelpers

/-! ### Helper lemmas -/

/-- Lookup distributes over list append, preferring the left list. -/
theorem lookup_append {α β : Type} [BEq α] (l₁ l₂ : List (α × β)) (k : α) :
    (l₁ ++ l₂).lookup k = ((l₁.lookup k).or (l₂.lookup k)) := by
  induction l₁ with
  | nil => simp [List.lookup]
  | cons h tl ih =>
      obtain ⟨k', v⟩ := h
      simp only [List.cons_append, List.lookup]
      cases hk : k == k' <;> simp [ih, Option.or]

namespace Conn

/-- One step of the connection, characterized across all four
stimuli: the id assigned, the successor request counter, the successor
registry and the continuations invoked. -/
theorem step_char (c : Connection) (e : CEvent) :
    (step c e).assigned = (if e.isRequest then some c.requestId else none)
    ∧ (step c e).conn.requestId
        = c.requestId + (if e.isRequest then 1 else 0)
    ∧ (step c e).conn.requests
        = c.requests ++ (if e.isRequest then [c.requestId] else [])
    ∧ (step c e).settled = [] := by
  cases e <;>
    simp [step, Conn.request, onMessage, onError, onClose, CEvent.isRequest]

/-- Every correlation id a trace assigns is at least the connection's
request counter at the trace's start. -/
theorem assigned_lower (evs : List CEvent) :
    ∀ (c : Connection) (a : Nat),
      a ∈ (runTrace c evs).assigned → c.requestId ≤ a := by
  induction evs with
  | nil =>
      intro c a h
      simp [runTrace] at h
  | cons e evs ih =>
      intro c a h
      obtain ⟨h1, h2, _, _⟩ := step_char c e
      simp only [runTrace, List.mem_append] at h
      cases hr : e.isRequest <;> rw [hr] at h1 h2 <;> simp at h1 h2
      · rcases h with h | h
        · rw [h1] at h
          simp at h
        · have := ih (step c e).conn a h
          omega
      · rcases h with h | h
        · rw [h1] at h
          simp at h
          omega
        · have := ih (step c e).conn a h
          omega

/-- The correlation ids assigned along any trace are pairwise
increasing in assignment order. -/
theorem assigned_pairwise (evs : List CEvent) :
    ∀ c : Connection,
      List.Pairwise (fun a b => a < b) ((runTrace c evs).assigned) := by
  induction evs with
  | nil =>
      intro c
      simp [runTrace]
  | cons e evs ih =>
      intro c
      obtain ⟨h1, h2, _, _⟩ := step_char c e
      simp only [runTrace]
      rw [h1]
      cases hr : e.isRequest <;> rw [hr] at h2 <;> simp at h2 ⊢
      · exact ih _
      · refine ⟨?_, ih _⟩
        intro a ha
        have := assigned_lower evs (step c e).conn a ha
        omega

/-- No stimulus sequence ever invokes a stored continuation. -/
theorem runTrace_settled (evs : List CEvent) :
    ∀ c : Connection, (runTrace c evs).settled = [] := by
  induction evs with
  | nil =>
      intro c
      simp [runTrace]
  | cons e evs ih =>
      intro c
      obtain ⟨_, _, _, h4⟩ := step_char c e
      simp [runTrace, h4, ih]

/-- The registry only ever grows along a trace: the entries present at
the start are an initial segment of the entries at the end. -/
theorem runTrace_requests_extend (evs : List CEvent) :
    ∀ c : Connection,
      ∃ extra, (runTrace c evs).conn.requests = c.requests ++ extra := by
  induction evs with
  | nil =>
      intro c
      exact ⟨[], by simp [runTrace]⟩
  | cons e evs ih =>
      intro c
      obtain ⟨_, _, h3, _⟩ := step_char c e
      obtain ⟨ex, hex⟩ := ih (step c e).conn
      refine ⟨(if e.isRequest then [c.requestId] else []) ++ ex, ?_⟩
      simp only [runTrace]
      rw [hex, h3, List.append_assoc]

end Conn

/-! ### Claim theorems -/

/-- C1: the claim states that for an inbound Response frame whose id is
pending, the Connection's message handler looks the id up, decodes the
payload with the endpoint schema, and settles the caller's promise; in
particular the scenario frame for id 0 should resolve the caller to an
AppState with empty mapping, empty sequence, absent playState and
volume 50. The code contradicts this: the schema would indeed decode
the scenario payload to exactly that AppState (first conjunct), but the
source's `onMessage` body is empty, so running the scenario invokes no
continuation and leaves id 0 pending (remaining conjuncts). -/
theorem c1_response_dispatch_unimplemented :
    Musicbox.AppStateDecoder
        (Json.obj [("storedPlaylists", Json.obj []),
                   ("playlist", Json.arr []), ("volume", Json.num 50)])
      = .ok { storedPlaylists := [], playlist := [], playState := none,
              volume := 50 }
    ∧ (Conn.runTrace Conn.connInit
        [.request "state" .null false,
         .message (.Response 0
           (Json.obj [("storedPlaylists", Json.obj []),
                      ("playlist", Json.arr []),
                      ("volume", Json.num 50)]))]).settled = []
    ∧ (Conn.runTrace Conn.connInit
        [.request "state" .null false,
         .message (.Response 0
           (Json.obj [("storedPlaylists", Json.obj []),
                      ("playlist", Json.arr []),
                      ("volume", Json.num 50)]))]).conn.requests = [0] :=
  ⟨rfl, rfl, rfl⟩

/-- C2: the claim states that a socket error or close while a request
is pending rejects every pending request and clears the registry. The
code contradicts this: after request id 0 and a socket error, the
handlers only replace the socket (`socketGen` grows); no continuation
is invoked and id 0 is still registered, so the caller waits forever. -/
theorem c2_no_rejectall_on_transport_error :
    (Conn.runTrace Conn.connInit
        [.request "state" .null false, .sockError]).settled = []
    ∧ (Conn.runTrace Conn.connInit
        [.request "state" .null false, .sockError]).conn.requests = [0]
    ∧ (Conn.runTrace Conn.connInit
        [.request "state" .null false, .sockError]).conn.socketGen = 1 :=
  ⟨rfl, rfl, rfl⟩

/-- C3: over any stimulus sequence on a fresh Connection, the
correlation ids assigned to the requests are pairwise increasing in
call order; in particular no id is ever assigned twice. -/
theorem c3_correlation_ids_monotone :
    ∀ evs : List Conn.CEvent,
      List.Pairwise (fun a b => a < b)
        ((Conn.runTrace Conn.connInit evs).assigned) :=
  fun evs => Conn.assigned_pairwise evs Conn.connInit

/-- C5: an inbound Response frame whose id has no pending entry is
processed without any exception (the handler is total) and leaves the
whole Connection state — in particular every other pending entry —
unchanged, invoking no continuation. -/
theorem c5_unmatched_response_noop (c : Conn.Connection) (id : Nat)
    (resp : Json) (h : id ∉ c.requests) :
    (Conn.step c (.message (.Response id resp))).conn = c
    ∧ (Conn.step c (.message (.Response id resp))).settled = [] :=
  ⟨rfl, rfl⟩

/-- Witness for C5 at the scenario input: a connection with only id 0
pending receives a Response for the never-assigned id 99. -/
theorem c5_unmatched_response_noop_witness :
    (99 : Nat) ∉ (Conn.Connection.mk 1 [0] 0).requests
    ∧ ((Conn.step (Conn.Connection.mk 1 [0] 0)
          (.message (.Response 99 (Json.obj [])))).conn
        = Conn.Connection.mk 1 [0] 0
      ∧ (Conn.step (Conn.Connection.mk 1 [0] 0)
          (.message (.Response 99 (Json.obj [])))).settled = []) :=
  ⟨by decide,
   c5_unmatched_response_noop (Conn.Connection.mk 1 [0] 0) 99 (Json.obj [])
     (by decide)⟩

/-- C8: no code path of the Connection ever settles the promise that
`request` returns: no stimulus sequence invokes a stored continuation,
and a failure of the un-awaited `send` promise changes neither the
successor state, nor the settlements (none), nor the assigned id,
compared to a successful send. -/
theorem c8_request_never_rejected :
    ∀ (c : Conn.Connection) (evs : List Conn.CEvent) (path : String)
      (data : Json),
      (Conn.runTrace c evs).settled = []
      ∧ (Conn.step c (.request path data true)).conn
          = (Conn.step c (.request path data false)).conn
      ∧ (Conn.step c (.request path data true)).settled = []
      ∧ (Conn.step c (.request path data true)).assigned
          = (Conn.step c (.request path data false)).assigned := by
  intro c evs path data
  exact ⟨Conn.runTrace_settled evs c, rfl, rfl, rfl⟩

/-- C9: the pending-requests map grows monotonically: a `request`
stimulus appends exactly its fresh id and every other stimulus leaves
the registry untouched; no stimulus invokes a stored continuation; and
along any stimulus sequence the initial entries remain registered. -/
theorem c9_registry_monotone :
    ∀ (c : Conn.Connection) (e : Conn.CEvent) (evs : List Conn.CEvent),
      (Conn.step c e).conn.requests
        = c.requests ++ (if e.isRequest then [c.requestId] else [])
      ∧ (Conn.step c e).settled = []
      ∧ ∃ extra, (Conn.runTrace c evs).conn.requests = c.requests ++ extra := by
  intro c e evs
  obtain ⟨_, _, h3, h4⟩ := Conn.step_char c e
  exact ⟨h3, h4, Conn.runTrace_requests_extend evs c⟩

namespace Api

/-- Every `Command` value's tag belongs to the transcribed tag list. -/
theorem command_tag_mem (c : Command) : c.tag ∈ commandTagList := by
  cases c <;> simp [Command.tag, commandTagList]

/-- Every `Event` value's tag belongs to the transcribed tag list. -/
theorem event_tag_mem (e : Event) : e.tag ∈ eventTagList := by
  cases e <;> simp [Event.tag, eventTagList]

/-- Every entry of the transcribed `Event` tag list is realized by a
value of the `Event` type. -/
theorem eventTagList_realized (t : String) (h : t ∈ eventTagList) :
    ∃ e : Event, e.tag = t := by
  simp [eventTagList] at h
  rcases h with rfl | rfl | rfl | rfl | rfl | rfl | rfl | rfl | rfl
  · exact ⟨.PreviousTrack, rfl⟩
  · exact ⟨.NextTrack, rfl⟩
  · exact ⟨.PlayPause, rfl⟩
  · exact ⟨.VolumeUp, rfl⟩
  · exact ⟨.VolumeDown, rfl⟩
  · exact ⟨.Shutdown, rfl⟩
  · exact ⟨.Reload, rfl⟩
  · exact ⟨.Status, rfl⟩
  · exact ⟨.PlaybackPosition 0, rfl⟩

end Api

/-- C4 counterexample: the claim says every Command-vocabulary tag is
also a valid Event tag, but `StartPlaylist` is the tag of a `Command`
value and is absent from the Event vocabulary (together with
`Api.event_tag_mem`, no `Event` value carries it). -/
theorem c4_startplaylist_counterexample :
    Api.Command.tag (Api.Command.StartPlaylist "p" true) = "StartPlaylist"
    ∧ Api.commandTagList.contains "StartPlaylist" = true
    ∧ Api.eventTagList.contains "StartPlaylist" = false :=
  ⟨rfl, by decide, by decide⟩

/-- C4 amended: the Event payload type admits exactly the Command
vocabulary tags other than `StartPlaylist`, plus `PlaybackPosition`;
that is, a string is a valid Event tag precisely when it is a Command
tag different from `StartPlaylist` or it is `PlaybackPosition`. -/
theorem c4_event_tags_amended :
    ∀ t : String,
      (∃ e : Api.Event, Api.Event.tag e = t)
        ↔ (((∃ c : Api.Command, Api.Command.tag c = t)
              ∧ (t == "StartPlaylist") = false)
            ∨ t = "PlaybackPosition") := by
  intro t
  constructor
  · rintro ⟨e, rfl⟩
    cases e with
    | PreviousTrack => exact Or.inl ⟨⟨.PreviousTrack, rfl⟩, by decide⟩
    | NextTrack => exact Or.inl ⟨⟨.NextTrack, rfl⟩, by decide⟩
    | PlayPause => exact Or.inl ⟨⟨.PlayPause, rfl⟩, by decide⟩
    | VolumeUp => exact Or.inl ⟨⟨.VolumeUp, rfl⟩, by decide⟩
    | VolumeDown => exact Or.inl ⟨⟨.VolumeDown, rfl⟩, by decide⟩
    | Shutdown => exact Or.inl ⟨⟨.Shutdown, rfl⟩, by decide⟩
    | Reload => exact Or.inl ⟨⟨.Reload, rfl⟩, by decide⟩
    | Status => exact Or.inl ⟨⟨.Status, rfl⟩, by decide⟩
    | PlaybackPosition d => exact Or.inr rfl
  · rintro (⟨⟨c, rfl⟩, hne⟩ | rfl)
    · cases c with
      | PreviousTrack => exact ⟨.PreviousTrack, rfl⟩
      | NextTrack => exact ⟨.NextTrack, rfl⟩
      | PlayPause => exact ⟨.PlayPause, rfl⟩
      | VolumeUp => exact ⟨.VolumeUp, rfl⟩
      | VolumeDown => exact ⟨.VolumeDown, rfl⟩
      | Shutdown => exact ⟨.Shutdown, rfl⟩
      | Reload => exact ⟨.Reload, rfl⟩
      | Status => exact ⟨.Status, rfl⟩
      | StartPlaylist n f => exact absurd hne (by simp [Api.Command.tag])
    · exact ⟨.PlaybackPosition 0, rfl⟩

/-- C7: serializing an outbound Command envelope to its wire form and
decoding that wire form back (with the spec-modelled peer decoder)
yields the original envelope, for every Command value. -/
theorem c7_command_roundtrip :
    ∀ cmd : Api.Command,
      Api.decodeMessageToServer
          (Api.MessageToServer.toJson (.Command cmd))
        = .ok (.Command cmd) := by
  intro cmd
  cases cmd <;> rfl

/-- C6 counterexample: the claim says both HTTP helper shapes issue the
fetch with the caller-supplied options merged over the defaults, but
the second GET-style variant drops the caller's options. With a fetch
oracle that echoes its option bag, defaults setting method GET and the
caller requesting POST, that variant fetches with method GET (first
conjunct), although the merge the claim requires resolves method to
POST (second conjunct). -/
theorem c6_init_dropped_counterexample :
    Http05.request "state" (fun j => Except.ok j) [("method", "GET")]
        (fun _ opts => Json.obj (opts.map (fun p => (p.1, Json.str p.2))))
        [("method", "POST")]
      = .ok (Json.obj [("method", Json.str "GET")])
    ∧ (objAssign (objAssign [] [("method", "GET")])
        [("method", "POST")]).lookup "method" = some "POST" :=
  ⟨rfl, by decide⟩

/-- C6 amended: the part_004 helpers (zero-argument GET-style and typed
POST-style) issue the fetch with the caller options merged over the
defaults — the caller's value wins for every option key, and for the
POST helper both layers win over the JSON body entry — and decode the
JSON response with the given schema; the second GET-style variant
(part_005) ignores the caller-supplied options and issues the fetch
with the defaults alone, still decoding with the schema. -/
theorem c6_http_merge_amended :
    ∀ (R P : Type) (path : String) (decoder : Json → Except String R)
      (stringify : P → String) (params : P) (defaults init : RequestInit)
      (fetchFn : String → RequestInit → Json) (k : String),
      Http04.request path decoder defaults fetchFn init
        = decoder (fetchFn path (objAssign (objAssign [] defaults) init))
      ∧ (objAssign (objAssign [] defaults) init).lookup k
          = ((init.lookup k).or (defaults.lookup k))
      ∧ Http04.typedRequest path stringify decoder defaults fetchFn params init
        = decoder (fetchFn path
            (objAssign (objAssign [("body", stringify params)] defaults) init))
      ∧ (objAssign (objAssign [("body", stringify params)] defaults)
            init).lookup k
          = ((init.lookup k).or ((defaults.lookup k).or
              (([("body", stringify params)] : RequestInit).lookup k)))
      ∧ Http05.request path decoder defaults fetchFn init
        = decoder (fetchFn path (objAssign [] defaults)) := by
  intro R P path decoder stringify params defaults init fetchFn k
  refine ⟨rfl, ?_, rfl, ?_, rfl⟩
  · simp [objAssign, lookup_append, List.lookup]
  · simp [objAssign, lookup_append]

/-- C10 counterexample: the claim says the top-level reducer returns
the state itself for every action whose type is not a key of the
reducer map, but the source's membership test is JavaScript's `in`,
which also matches inherited `Object.prototype` members: `toString` is
not a key of the app's reducer map (first conjunct), yet dispatching
an action of that type invokes the inherited `toString` on a draft and
`produce` installs its result, the string "[object Object]", as the
new store state instead of returning the state (second conjunct). -/
theorem c10_prototype_in_counterexample :
    StoreHelpers.appReducerMap.lookup "toString" = none
    ∧ StoreHelpers.appReducer
        { playbackState := none, storedPlaylists := [], playlist := [] }
        ⟨"toString", { name := "pl", tracks := [] }⟩
      = .junk (Json.str "[object Object]") :=
  ⟨rfl, rfl⟩

/-- C10 amended: for every action whose type is neither a key of the
reducer map nor a property inherited from `Object.prototype`, the
top-level reducer built by `immutableReducer` returns the state itself
unchanged (generically, and for the app's reducer map whose only own
key is UpdateStoredPlaylist); for an action type naming an inherited
member such as `toString` the `in` test passes and the reducer instead
returns that member's result — for `toString`, the string
"[object Object]" — as the new store state; and for the known action
type it returns the state produced by running the draft mutation —
setting the playlist under its name — via `produce`, without mutating
the input state. -/
theorem c10_prototype_chain_amended :
    ∀ (S P : Type) (m : List (String × (S → P → S))) (s : S) (t : String)
      (p : P) (s' : StoreTypes.AppState) (p' : Musicbox.StoredPlaylist),
      (m.lookup t = none →
        StoreHelpers.objectPrototypeKeys.contains t = false →
        StoreHelpers.immutableReducer m s ⟨t, p⟩ = .state s)
      ∧ ((t == "UpdateStoredPlaylist") = false →
          StoreHelpers.objectPrototypeKeys.contains t = false →
          StoreHelpers.appReducer s' ⟨t, p'⟩ = .state s')
      ∧ StoreHelpers.appReducer s' ⟨"toString", p'⟩
          = .junk (Json.str "[object Object]")
      ∧ StoreHelpers.appReducer s' ⟨"UpdateStoredPlaylist", p'⟩
          = .state { s' with storedPlaylists :=
                StoreHelpers.mapSet s'.storedPlaylists p'.name p' } := by
  intro S P m s t p s' p'
  refine ⟨?_, ?_, rfl, rfl⟩
  · intro h1 h2
    have h2' : t ∉ StoreHelpers.objectPrototypeKeys := by simpa using h2
    simp [StoreHelpers.immutableReducer, StoreHelpers.jsIn, h1, h2']
  · intro h1 h2
    have h2' : t ∉ StoreHelpers.objectPrototypeKeys := by simpa using h2
    simp [StoreHelpers.appReducer, StoreHelpers.immutableReducer,
          StoreHelpers.jsIn, StoreHelpers.appReducerMap, List.lookup, h1, h2']

/-- Witness for C10 at concrete inputs: an empty reducer map with the
unknown, non-inherited type Nope, and the app reducer on an action of
that type. -/
theorem c10_prototype_chain_amended_witness :
    (List.lookup "Nope" ([] : List (String × (Nat → Nat → Nat))) = none
      ∧ StoreHelpers.objectPrototypeKeys.contains "Nope" = false
      ∧ StoreHelpers.immutableReducer ([] : List (String × (Nat → Nat → Nat)))
          (5 : Nat) ⟨"Nope", (0 : Nat)⟩ = .state 5)
    ∧ ((("Nope" == "UpdateStoredPlaylist") : Bool) = false
      ∧ StoreHelpers.appReducer
          { playbackState := none, storedPlaylists := [], playlist := [] }
          ⟨"Nope", { name := "pl", tracks := [] }⟩
        = .state { playbackState := none, storedPlaylists := [],
                   playlist := [] }) := by
  have h := c10_prototype_chain_amended Nat Nat [] 5 "Nope" 0
      { playbackState := none, storedPlaylists := [], playlist := [] }
      { name := "pl", tracks := [] }
  exact ⟨⟨rfl, by decide, h.1 rfl (by decide)⟩,
         ⟨by decide, h.2.1 (by decide) (by decide)⟩⟩
